import Mathlib

/-!
Shallow embedding of `pybnfuzzer.py`: a BNF-grammar-driven random string
generator.  The pipeline is tokenizer (`lex_bnf`), definition extractor
(`parse_all_symbol_definitions`), rule builder (`parse_bnf_tokens`),
generator (`gen`) and introspector (`reprRule`).

Modelling conventions:
- Python strings are Lean `String`s; scanning works on `List Char`.
- Fatal errors raised through `report_error_and_exit` are `Err.reported msg`;
  an unhandled Python exception (IndexError from `list.pop` / string
  indexing past the end, UnboundLocalError from reading a never-assigned
  local, RecursionError) is `Err.pyException kind`.
- Randomness is an explicit stream of natural-number draws:
  `random.randint(a, b)` consumes one draw `d` and yields `a + d % (b - a + 1)`,
  `random.choice(seq)` consumes one draw `d` and yields `seq[d % len(seq)]`.
- The regex-sampling collaborator (`rstr.Xeger`, patched by the source) is
  external to the core; `gen` is parameterized by a `sampler` standing for
  `random_string_from_regex`.  Regex compilation (`re.compile`) is likewise
  external; `RegexRule` stores the raw pattern text.
- Python's shared mutable rule dictionary (`parsed_rules`), captured by every
  `ReferenceRule`, is modelled by passing the finished table to `gen`/`reprRule`
  explicitly; `ReferenceRule` nodes store only the symbol name, as in the
  source.  Each `ReferenceRule` object additionally carries a unique `id`
  standing for its Python object identity, which the introspector uses for its
  per-instance `__had_repr_call` flag (the visited set is a list of ids).
-/

namespace Pybnfuzzer

def START_LIMIT : Nat := 5
def PLUS_LIMIT : Nat := 5
def REGEXP_REPEAT_LIMIT : Nat := 5

/-- Outcome of a fatal failure: either an error reported through
`report_error_and_exit`, or an unhandled Python exception. -/
inductive Err where
  | reported (msg : String)
  | pyException (kind : String)
deriving DecidableEq

inductive TokenKind where
  | DEFINE
  | SYMBOL
  | LITERAL
  | SEMICOLON
  | ALTER
  | REGEX
  | OPAREN
  | CPAREN
  | STAR
  | PLUS
  | OPTION
deriving DecidableEq

/-- Python `f-string` display of a `TokenKind` enum member. -/
def kindStr : TokenKind → String
  | .DEFINE => "TokenKind.DEFINE"
  | .SYMBOL => "TokenKind.SYMBOL"
  | .LITERAL => "TokenKind.LITERAL"
  | .SEMICOLON => "TokenKind.SEMICOLON"
  | .ALTER => "TokenKind.ALTER"
  | .REGEX => "TokenKind.REGEX"
  | .OPAREN => "TokenKind.OPAREN"
  | .CPAREN => "TokenKind.CPAREN"
  | .STAR => "TokenKind.STAR"
  | .PLUS => "TokenKind.PLUS"
  | .OPTION => "TokenKind.OPTION"

structure Token where
  kind : TokenKind
  value : Option String
deriving DecidableEq

/-- Python `f-string` display of a `str | None` value used in error messages
and as a rule-table key. -/
def fmtKey : Option String → String
  | some s => s
  | none => "None"

def charStr (c : Char) : String := String.mk [c]

/-- Membership in `ALLOWED_SYMBOL_NAME_CHARACTERS`
(`string.ascii_letters + string.digits` plus `-` and `_`). -/
def allowedSymbolNameChar (c : Char) : Bool :=
  c.isAlpha || c.isDigit || c = '-' || c = '_'

/-- Membership in Python `string.whitespace`. -/
def pyWhitespace (c : Char) : Bool :=
  c = ' ' || c = '\t' || c = '\n' || c = '\r' || c = '\x0b' || c = '\x0c'

/-- The symbol-name sub-loop of `lex_bnf` (after an opening angle bracket):
collects allowed characters until the closing bracket; a disallowed character
or end-of-input is a reported lexical error. -/
def lexSymbolName (acc : String) : List Char → Except Err (String × List Char)
  | [] => .error (.reported ("unterminated rule name near \"" ++ acc ++ "\""))
  | c :: cs =>
    if c = '>' then .ok (acc, cs)
    else if allowedSymbolNameChar c then lexSymbolName (acc.push c) cs
    else .error (.reported
      ("only ASCII uppercase and lowercase letters, digits, and \"-\" and \"_\" " ++
       "characters are allowed in symbol names; got: \"" ++ charStr c ++ "\""))

/-- The literal sub-loop of `lex_bnf`, identical for double and single quotes:
handles the escapes `\n`, `\t`, `\\`; any other escape is a reported error.
A backslash as the very last input character makes the source read
`bnf[idx]` one past the end: an unhandled IndexError.  End-of-input without
the closing quote is the reported unterminated-literal error. -/
def lexLiteral (quote : Char) (acc : String) : List Char → Except Err (String × List Char)
  | [] => .error (.reported ("unterminated literal value near \"" ++ acc ++ "\""))
  | c :: cs =>
    if c = quote then .ok (acc, cs)
    else if c = '\\' then
      match cs with
      | [] => .error (.pyException "IndexError")
      | e :: cs' =>
        if e = 'n' then lexLiteral quote (acc.push '\n') cs'
        else if e = 't' then lexLiteral quote (acc.push '\t') cs'
        else if e = '\\' then lexLiteral quote (acc.push '\\') cs'
        else .error (.reported ("unrecognized escape sequence: \\\"" ++ charStr e ++ "\""))
    else lexLiteral quote (acc.push c) cs

/-- The regex sub-loop of `lex_bnf`: a single quote escapes `/` and itself.
On end-of-input the source formats the local variable `symbol_name` into the
error message; that local is only assigned by the symbol-name branch, so if no
symbol token has been lexed yet the source raises UnboundLocalError instead of
reporting.  `lastSym` tracks that local. -/
def lexRegex (lastSym : Option String) (acc : String) :
    List Char → Except Err (String × List Char)
  | [] =>
    match lastSym with
    | none => .error (.pyException "UnboundLocalError")
    | some s => .error (.reported ("unterminated literal value near \"" ++ s ++ "\""))
  | c :: cs =>
    if c = '/' then .ok (acc, cs)
    else if c = '\x27' then
      match cs with
      | [] => .error (.reported "broken escape sequence in regex")
      | e :: cs' =>
        if e = '/' then lexRegex lastSym (acc.push '/') cs'
        else if e = '\x27' then lexRegex lastSym (acc.push '\x27') cs'
        else .error (.reported "unrecognized escape sequence in regex")
    else lexRegex lastSym (acc.push c) cs

/-- Main loop of `lex_bnf`.  `fuel` bounds the number of outer-loop
iterations; every iteration consumes at least one character, so
`input length + 1` is always enough. -/
def lexLoop (lastSym : Option String) (acc : List Token) :
    Nat → List Char → Except Err (List Token)
  | _, [] => .ok acc
  | 0, _ :: _ => .error (.pyException "OutOfFuel")
  | fuel + 1, c :: cs =>
    if c = '<' then
      match lexSymbolName "" cs with
      | .error e => .error e
      | .ok (name, rest) =>
        lexLoop (some name) (acc ++ [⟨.SYMBOL, some name⟩]) fuel rest
    else if c = ':' then
      match cs with
      | ':' :: '=' :: rest => lexLoop lastSym (acc ++ [⟨.DEFINE, none⟩]) fuel rest
      | _ => .error (.reported "broken rule definition")
    else if c = '"' then
      match lexLiteral '"' "" cs with
      | .error e => .error e
      | .ok (value, rest) => lexLoop lastSym (acc ++ [⟨.LITERAL, some value⟩]) fuel rest
    else if c = '\x27' then
      match lexLiteral '\x27' "" cs with
      | .error e => .error e
      | .ok (value, rest) => lexLoop lastSym (acc ++ [⟨.LITERAL, some value⟩]) fuel rest
    else if c = '/' then
      match lexRegex lastSym "" cs with
      | .error e => .error e
      | .ok (regex, rest) => lexLoop lastSym (acc ++ [⟨.REGEX, some regex⟩]) fuel rest
    else if c = ';' then lexLoop lastSym (acc ++ [⟨.SEMICOLON, none⟩]) fuel cs
    else if c = '|' then lexLoop lastSym (acc ++ [⟨.ALTER, none⟩]) fuel cs
    else if c = '(' then lexLoop lastSym (acc ++ [⟨.OPAREN, none⟩]) fuel cs
    else if c = ')' then lexLoop lastSym (acc ++ [⟨.CPAREN, none⟩]) fuel cs
    else if c = '*' then lexLoop lastSym (acc ++ [⟨.STAR, none⟩]) fuel cs
    else if c = '+' then lexLoop lastSym (acc ++ [⟨.PLUS, none⟩]) fuel cs
    else if c = '?' then lexLoop lastSym (acc ++ [⟨.OPTION, none⟩]) fuel cs
    else if c = '#' then
      lexLoop lastSym acc fuel (cs.dropWhile (fun ch => ch ≠ '\n'))
    else if pyWhitespace c then lexLoop lastSym acc fuel cs
    else
      .error (.reported
        ("unrecognized symbol: \"" ++ charStr c ++ "\" (code: " ++ toString c.toNat ++ ")"))

def lex_bnf (bnf : String) : Except Err (List Token) :=
  lexLoop none [] (bnf.length + 1) bnf.data

/-- The rule AST of the source (`LiteralRule`, `RegexRule`, `CompoundRule`,
`AlterationRule`, `ReferenceRule`, `OptionalRule`, `NoneOrMoreRule`,
`OneOrMoreRule`).  `RegexRule` keeps the raw pattern text (compilation is the
external `re` module).  `ReferenceRule` keeps the referenced symbol name (as
in the source, which also captures the shared rule dictionary) together with
a unique object id used by the introspector's per-instance visited flag. -/
inductive Rule where
  | LiteralRule (value : String)
  | RegexRule (pattern : String)
  | CompoundRule (values : List Rule)
  | AlterationRule (values : List Rule)
  | ReferenceRule (symbol : Option String) (id : Nat)
  | OptionalRule (value : Rule)
  | NoneOrMoreRule (value : Rule)
  | OneOrMoreRule (value : Rule)

/-- The shared rule dictionary `parsed_rules` (insertion-ordered, keys
unique). -/
abbrev Table := List (Option String × Rule)

/-- `dict.get`: first (only) binding of the key, if any. -/
def lookupTbl (tbl : Table) (key : Option String) : Option Rule :=
  (tbl.find? (fun kv => kv.1 == key)).map (fun kv => kv.2)

/-- State of the scanning loop of `parse_all_symbol_definitions`: either
scanning for a `DEFINE` token (remembering the previous token, the source's
`tokens[idx - 1]`), or collecting a rule body up to the next `SEMICOLON`
(body kept in reverse). -/
inductive ExtractMode where
  | scanning (prev : Option Token)
  | collecting (sym : Option String) (body : List Token)

/-- The loop of `parse_all_symbol_definitions`, one token per step. -/
def extractLoop : List Token → ExtractMode → List (Option String × List Token) →
    Except Err (List (Option String × List Token))
  | [], .scanning _, defs => .ok defs
  | [], .collecting _ _, _ => .error (.reported "missing semicolon for rule definition")
  | t :: rest, .scanning prev, defs =>
    if t.kind = .DEFINE then
      match prev with
      | some p =>
        if p.kind = .SYMBOL then extractLoop rest (.collecting p.value []) defs
        else .error (.reported "missing symbol for definition")
      | none => .error (.reported "missing symbol for definition")
    else extractLoop rest (.scanning (some t)) defs
  | t :: rest, .collecting sym body, defs =>
    if t.kind = .SEMICOLON then
      if defs.any (fun kv => kv.1 == sym) then
        .error (.reported ("attempt to redefine existing rule \"" ++ fmtKey sym ++ "\""))
      else extractLoop rest (.scanning (some t)) (defs ++ [(sym, body.reverse)])
    else extractLoop rest (.collecting sym (t :: body)) defs

def parse_all_symbol_definitions (tokens : List Token) :
    Except Err (List (Option String × List Token)) :=
  extractLoop tokens (.scanning none) []

/-- The per-definition stack machine of `parse_bnf_tokens`.  `current` is the
current-sequence stack (`current_variant_rules`, most recent first),
`variants` the collected alternation variants (`alteration_variants`, in
order), `cnt` the next fresh `ReferenceRule` object id.  Popping from an
empty stack is the source's unguarded `list.pop()`: an unhandled
IndexError. -/
def buildLoop (sym : Option String) : List Token → List Rule → List Rule → Nat →
    Except Err (List Rule × List Rule × Nat)
  | [], variants, current, cnt => .ok (variants, current, cnt)
  | t :: rest, variants, current, cnt =>
    if t.kind = .LITERAL then
      buildLoop sym rest variants (.LiteralRule (t.value.getD "") :: current) cnt
    else if t.kind = .REGEX then
      buildLoop sym rest variants (.RegexRule (t.value.getD "") :: current) cnt
    else if t.kind = .SYMBOL then
      buildLoop sym rest variants (.ReferenceRule t.value cnt :: current) (cnt + 1)
    else if t.kind = .OPTION then
      match current with
      | [] => .error (.pyException "IndexError")
      | x :: xs => buildLoop sym rest variants (.OptionalRule x :: xs) cnt
    else if t.kind = .STAR then
      match current with
      | [] => .error (.pyException "IndexError")
      | x :: xs => buildLoop sym rest variants (.NoneOrMoreRule x :: xs) cnt
    else if t.kind = .PLUS then
      match current with
      | [] => .error (.pyException "IndexError")
      | x :: xs => buildLoop sym rest variants (.OneOrMoreRule x :: xs) cnt
    else if t.kind = .ALTER then
      match current with
      | [] => .error (.reported ("empty alteration variant in rule <" ++ fmtKey sym ++ ">"))
      | [x] => buildLoop sym rest (variants ++ [x]) [] cnt
      | xs => buildLoop sym rest (variants ++ [.CompoundRule xs.reverse]) [] cnt
    else
      .error (.reported ("rules of kind " ++ kindStr t.kind ++ " are not supported yet"))

/-- Collapsing `alteration_variants` into the rule stored for a symbol. -/
def finishVariants (sym : Option String) (variants : List Rule) (cnt : Nat) :
    Except Err (Rule × Nat) :=
  match variants with
  | [] => .error (.reported ("rule <" ++ fmtKey sym ++ "> is empty"))
  | [v] => .ok (v, cnt)
  | vs => .ok (.AlterationRule vs, cnt)

/-- Building the rule for one symbol: run the stack machine, then flush the
pending sequence as the last variant exactly as the `ALTER` case does. -/
def buildRule (sym : Option String) (ruleTokens : List Token) (cnt : Nat) :
    Except Err (Rule × Nat) :=
  match buildLoop sym ruleTokens [] [] cnt with
  | .error e => .error e
  | .ok (variants, current, cnt') =>
    match current with
    | [] => .error (.reported ("empty alteration variant in rule <" ++ fmtKey sym ++ ">"))
    | [x] => finishVariants sym (variants ++ [x]) cnt'
    | xs => finishVariants sym (variants ++ [.CompoundRule xs.reverse]) cnt'

/-- Iterating `buildRule` over the extracted definitions in insertion order,
populating the shared rule table. -/
def buildAll : List (Option String × List Token) → Table → Nat →
    Except Err (Table × Nat)
  | [], tbl, cnt => .ok (tbl, cnt)
  | (sym, toks) :: rest, tbl, cnt =>
    match buildRule sym toks cnt with
    | .error e => .error e
    | .ok (rule, cnt') => buildAll rest (tbl ++ [(sym, rule)]) cnt'

/-- `parse_bnf_tokens`: extract definitions, require a `start` entry point,
build every rule, and return a fresh `ReferenceRule` to `start` together with
the shared table.  (The source checks `'start' not in definitions` and errors
first; the branches here are the same two, swapped.) -/
def parse_bnf_tokens (tokens : List Token) : Except Err (Rule × Table) :=
  match parse_all_symbol_definitions tokens with
  | .error e => .error e
  | .ok definitions =>
    if definitions.any (fun kv => kv.1 == (some "start" : Option String)) then
      match buildAll definitions [] 0 with
      | .error e => .error e
      | .ok (tbl, cnt) => .ok (.ReferenceRule (some "start") cnt, tbl)
    else
      .error (.reported "could not find an entry point; grammar must contain a <start> rule")

def parse_bnf (bnf : String) : Except Err (Rule × Table) :=
  match lex_bnf bnf with
  | .error e => .error e
  | .ok tokens => parse_bnf_tokens tokens

/-- One draw from the randomness stream. -/
def nextDraw : List Nat → Nat × List Nat
  | [] => (0, [])
  | d :: ds => (d, ds)

/-- `''.join(rule.gen() for rule in rules)` for `CompoundRule.gen`:
generate each child in order, threading the draw stream. -/
def genSeq (g : Rule → List Nat → Except Err (String × List Nat)) :
    List Rule → List Nat → Except Err (String × List Nat)
  | [], ds => .ok ("", ds)
  | r :: rs, ds =>
    match g r ds with
    | .error e => .error e
    | .ok (s, ds') =>
      match genSeq g rs ds' with
      | .error e => .error e
      | .ok (s', ds'') => .ok (s ++ s', ds'')

/-- `''.join(self.value.gen() for _ in range(times))` for the repetition
rules: the concatenation of `times` successive generations of the inner
rule. -/
def genTimes (g : List Nat → Except Err (String × List Nat)) :
    Nat → List Nat → Except Err (String × List Nat)
  | 0, ds => .ok ("", ds)
  | n + 1, ds =>
    match g ds with
    | .error e => .error e
    | .ok (s, ds') =>
      match genTimes g n ds' with
      | .error e => .error e
      | .ok (s', ds'') => .ok (s ++ s', ds'')

/-- The generator: `Rule.gen` dispatched over the variants.  `fuel` models the
Python call-stack depth (exhaustion is RecursionError); `sampler` is the
external `random_string_from_regex` collaborator.
`OptionalRule` draws from `(True, False)` (index 0 means generate);
`NoneOrMoreRule` draws `randint(0, START_LIMIT)`;
`OneOrMoreRule` draws `randint(1, PLUS_LIMIT)`;
an undefined reference is the lazily reported semantic error. -/
def gen (sampler : String → List Nat → String × List Nat) :
    Nat → Table → Rule → List Nat → Except Err (String × List Nat)
  | 0, _, _, _ => .error (.pyException "RecursionError")
  | fuel + 1, tbl, rule, ds =>
    match rule with
    | .LiteralRule v => .ok (v, ds)
    | .RegexRule p => .ok (sampler p ds)
    | .CompoundRule vs => genSeq (fun r ds' => gen sampler fuel tbl r ds') vs ds
    | .AlterationRule vs =>
      let (d, ds') := nextDraw ds
      match vs.get? (d % vs.length) with
      | none => .error (.pyException "IndexError")
      | some v => gen sampler fuel tbl v ds'
    | .ReferenceRule symb _ =>
      match lookupTbl tbl symb with
      | none => .error (.reported ("reference to an undefined rule <" ++ fmtKey symb ++ ">"))
      | some r => gen sampler fuel tbl r ds
    | .OptionalRule v =>
      let (d, ds') := nextDraw ds
      if d % 2 = 0 then gen sampler fuel tbl v ds' else .ok ("", ds')
    | .NoneOrMoreRule v =>
      let (d, ds') := nextDraw ds
      genTimes (fun ds'' => gen sampler fuel tbl v ds'') (d % (START_LIMIT + 1)) ds'
    | .OneOrMoreRule v =>
      let (d, ds') := nextDraw ds
      genTimes (fun ds'' => gen sampler fuel tbl v ds'') (1 + d % PLUS_LIMIT) ds'

/-- `str.replace` of a newline by a backslash-n, as in `LiteralRule.__repr__`. -/
def replaceNl : List Char → List Char
  | [] => []
  | c :: cs => if c = '\n' then '\\' :: 'n' :: replaceNl cs else c :: replaceNl cs

/-- Children dumps for `CompoundRule`/`AlterationRule` reprs, threading the
set of already-visited `ReferenceRule` ids. -/
def reprSeq (g : Rule → List Nat → Except Err (String × List Nat)) :
    List Rule → List Nat → Except Err (List String × List Nat)
  | [], vis => .ok ([], vis)
  | r :: rs, vis =>
    match g r vis with
    | .error e => .error e
    | .ok (s, vis') =>
      match reprSeq g rs vis' with
      | .error e => .error e
      | .ok (ss, vis'') => .ok (s :: ss, vis'')

/-- The introspector: `__repr__` dispatched over the variants.  `visited` is
the set of `ReferenceRule` object ids whose `__had_repr_call` flag is set; the
flag lives on the object in the source, so the set coming out of one dump is
the state a later dump starts from.  A `ReferenceRule` whose flag is set
prints the self-reference placeholder; otherwise it sets its flag, looks its
symbol up and embeds the target's dump (a failed lookup formats Python
`None`). -/
def reprRule : Nat → Table → Rule → List Nat →
    Except Err (String × List Nat)
  | 0, _, _, _ => .error (.pyException "RecursionError")
  | fuel + 1, tbl, rule, visited =>
    match rule with
    | .LiteralRule v =>
      .ok ("LiteralRule(\"" ++ String.mk (replaceNl v.data) ++ "\")", visited)
    | .RegexRule p =>
      .ok ("RegexRule(re.compile(\x27" ++ p ++ "\x27))", visited)
    | .CompoundRule vs =>
      match reprSeq (fun r vis => reprRule fuel tbl r vis) vs visited with
      | .error e => .error e
      | .ok (ss, vis') => .ok ("CompoundRule(" ++ String.intercalate ", " ss ++ ")", vis')
    | .AlterationRule vs =>
      match reprSeq (fun r vis => reprRule fuel tbl r vis) vs visited with
      | .error e => .error e
      | .ok (ss, vis') => .ok ("AlterationRule(" ++ String.intercalate ", " ss ++ ")", vis')
    | .ReferenceRule symb id =>
      if visited.contains id then
        .ok ("ReferenceRule(<" ++ fmtKey symb ++ "> with reference to self)", visited)
      else
        match lookupTbl tbl symb with
        | none => .ok ("ReferenceRule(<" ++ fmtKey symb ++ "> with None)", id :: visited)
        | some r =>
          match reprRule fuel tbl r (id :: visited) with
          | .error e => .error e
          | .ok (s, vis') =>
            .ok ("ReferenceRule(<" ++ fmtKey symb ++ "> with " ++ s ++ ")", vis')
    | .OptionalRule v =>
      match reprRule fuel tbl v visited with
      | .error e => .error e
      | .ok (s, vis') => .ok ("OptionalRule(" ++ s ++ ")", vis')
    | .NoneOrMoreRule v =>
      match reprRule fuel tbl v visited with
      | .error e => .error e
      | .ok (s, vis') => .ok ("NoneOrMoreRule(" ++ s ++ ")", vis')
    | .OneOrMoreRule v =>
      match reprRule fuel tbl v visited with
      | .error e => .error e
      | .ok (s, vis') => .ok ("OneOrMoreRule(" ++ s ++ ")", vis')


/-! ## Claim theorems -/

/-- C1: the introspector's visited state leaks between independent dumps.
Evaluating the code at the grammar `<start> ::= "x" ;`: the first dump of the
parsed rule tree prints the referenced literal, but a second, independent dump
of the very same tree prints the self-reference placeholder instead, because
`__had_repr_call` is set on the node during the first dump and never reset.
The two dumps are not identical, contradicting the claim. -/
theorem c1_repr_state_leaks_between_dumps :
    parse_bnf "<start> ::= \"x\" ;"
      = .ok (.ReferenceRule (some "start") 0, [(some "start", .LiteralRule "x")])
    ∧ reprRule 10 [(some "start", .LiteralRule "x")] (.ReferenceRule (some "start") 0) []
      = .ok ("ReferenceRule(<start> with LiteralRule(\"x\"))", [0])
    ∧ reprRule 10 [(some "start", .LiteralRule "x")] (.ReferenceRule (some "start") 0) [0]
      = .ok ("ReferenceRule(<start> with reference to self)", [0])
    ∧ ("ReferenceRule(<start> with LiteralRule(\"x\"))" : String)
      ≠ "ReferenceRule(<start> with reference to self)" := by
  refine ⟨rfl, rfl, rfl, ?_⟩
  decide

/-- C2: a postfix modifier (`?`, `*`, `+`) with an empty current-sequence
stack — at the start of a rule body or right after `|` — does not produce the
reported "postfix operator with nothing to modify" error the claim describes:
the source calls `list.pop()` on the empty stack, which raises an unhandled
IndexError. -/
theorem c2_postfix_empty_stack_is_uncaught_index_error :
    parse_bnf_tokens [⟨.SYMBOL, some "start"⟩, ⟨.DEFINE, none⟩, ⟨.OPTION, none⟩,
        ⟨.SEMICOLON, none⟩]
      = .error (.pyException "IndexError")
    ∧ parse_bnf_tokens [⟨.SYMBOL, some "start"⟩, ⟨.DEFINE, none⟩, ⟨.STAR, none⟩,
        ⟨.SEMICOLON, none⟩]
      = .error (.pyException "IndexError")
    ∧ parse_bnf_tokens [⟨.SYMBOL, some "start"⟩, ⟨.DEFINE, none⟩, ⟨.PLUS, none⟩,
        ⟨.SEMICOLON, none⟩]
      = .error (.pyException "IndexError")
    ∧ parse_bnf_tokens [⟨.SYMBOL, some "start"⟩, ⟨.DEFINE, none⟩, ⟨.LITERAL, some "a"⟩,
        ⟨.ALTER, none⟩, ⟨.OPTION, none⟩, ⟨.SEMICOLON, none⟩]
      = .error (.pyException "IndexError") := by
  exact ⟨rfl, rfl, rfl, rfl⟩

/-- C4: an unterminated double-quoted literal is the reported
unterminated-literal error in the ordinary case, but when the input ends on a
backslash that opens an escape the source reads one character past the end of
the input and raises an unhandled IndexError instead of reporting — for both
quote styles — contradicting the claim's "including" case. -/
theorem c4_unterminated_literal_backslash_crash :
    lex_bnf "\"ab" = .error (.reported "unterminated literal value near \"ab\"")
    ∧ lex_bnf "\"ab\\" = .error (.pyException "IndexError")
    ∧ lex_bnf "\x27ab\\" = .error (.pyException "IndexError") := by
  exact ⟨rfl, rfl, rfl⟩

/-- C5: an unterminated regex body does not yield the reported lexical error
with the offending fragment.  When no symbol token was lexed earlier the
source raises UnboundLocalError (the error message formats the never-assigned
local `symbol_name`); when a symbol was lexed earlier it reports, but with the
stale symbol name and the unterminated-literal wording, not the regex
fragment. -/
theorem c5_unterminated_regex_unbound_local :
    lex_bnf "/ab" = .error (.pyException "UnboundLocalError")
    ∧ lex_bnf "<a> ::= /ab"
      = .error (.reported "unterminated literal value near \"a\"") := by
  exact ⟨rfl, rfl⟩

/-- C6: round-trip — parsing the grammar text `<start> ::= "x" ;` yields a
reference to `start` over a table binding `start` to the literal `x`, and
generating from it returns exactly the string `x` for every sequence of
random draws (no draw is even consumed), whatever the regex sampler. -/
theorem c6_roundtrip_literal_grammar :
    parse_bnf "<start> ::= \"x\" ;"
      = .ok (.ReferenceRule (some "start") 0, [(some "start", .LiteralRule "x")])
    ∧ ∀ (sampler : String → List Nat → String × List Nat) (ds : List Nat),
        gen sampler 10 [(some "start", .LiteralRule "x")]
          (.ReferenceRule (some "start") 0) ds = .ok ("x", ds) := by
  exact ⟨rfl, fun sampler ds => rfl⟩

/-- C7: a `NoneOrMoreRule` draws its repetition count as `randint(0, 5)` —
in the draw model `d % 6`, always in `[0, 5]` and hitting every value of
`[0, 5]` as `d` ranges over residues — and returns the concatenation of that
many generations of the inner rule (`genTimes`); a `OneOrMoreRule` draws
`randint(1, 5)` — `1 + d % 5`, always in `[1, 5]`, hitting every value of
`[1, 5]`, and never zero. -/
theorem c7_repetition_counts :
    ∀ (sampler : String → List Nat → String × List Nat) (f : Nat) (tbl : Table)
      (v : Rule) (d : Nat) (ds : List Nat),
      gen sampler (f + 1) tbl (.NoneOrMoreRule v) (d :: ds)
        = genTimes (fun ds' => gen sampler f tbl v ds') (d % 6) ds
      ∧ d % 6 ≤ 5
      ∧ gen sampler (f + 1) tbl (.OneOrMoreRule v) (d :: ds)
        = genTimes (fun ds' => gen sampler f tbl v ds') (1 + d % 5) ds
      ∧ 1 ≤ 1 + d % 5
      ∧ 1 + d % 5 ≤ 5
      ∧ (List.range 6).map (fun e => e % 6) = [0, 1, 2, 3, 4, 5]
      ∧ (List.range 5).map (fun e => 1 + e % 5) = [1, 2, 3, 4, 5] := by
  intro sampler f tbl v d ds
  refine ⟨?_, ?_, ?_, ?_, ?_, ?_, ?_⟩
  · simp [gen, nextDraw, START_LIMIT]
  · omega
  · simp [gen, nextDraw, PLUS_LIMIT]
  · omega
  · have : d % 5 < 5 := Nat.mod_lt _ (by omega)
    omega
  · decide
  · decide

/-- C3: a reference to an undefined symbol does not fail at build time.  For
any symbol name `s` other than `start`, the grammar whose single rule is
`<start> ::= <s> ;` builds successfully into a reference to `start` over a
table binding only `start`; generation then fails with the reported semantic
error exactly when it looks `s` up in the rule table, for every sampler and
every sequence of random draws. -/
theorem c3_undefined_reference_is_lazy (s : String) (h : s ≠ "start") :
    parse_bnf_tokens [⟨.SYMBOL, some "start"⟩, ⟨.DEFINE, none⟩, ⟨.SYMBOL, some s⟩,
        ⟨.SEMICOLON, none⟩]
      = .ok (.ReferenceRule (some "start") 1, [(some "start", .ReferenceRule (some s) 0)])
    ∧ ∀ (sampler : String → List Nat → String × List Nat) (ds : List Nat),
        gen sampler 10 [(some "start", .ReferenceRule (some s) 0)]
          (.ReferenceRule (some "start") 1) ds
          = .error (.reported ("reference to an undefined rule <" ++ s ++ ">")) := by
  constructor
  · rfl
  · intro sampler ds
    have hne : ((some "start" : Option String) == some s) = false := by
      simp [Ne.symm h]
    simp [gen, lookupTbl, List.find?, hne, fmtKey]

/-- Witness for C3 at the concrete undefined symbol `undef`. -/
theorem c3_undefined_reference_is_lazy_witness :
    parse_bnf_tokens [⟨.SYMBOL, some "start"⟩, ⟨.DEFINE, none⟩, ⟨.SYMBOL, some "undef"⟩,
        ⟨.SEMICOLON, none⟩]
      = .ok (.ReferenceRule (some "start") 1,
          [(some "start", .ReferenceRule (some "undef") 0)])
    ∧ gen (fun _ ds => ("", ds)) 10 [(some "start", .ReferenceRule (some "undef") 0)]
        (.ReferenceRule (some "start") 1) []
      = .error (.reported ("reference to an undefined rule <" ++ "undef" ++ ">")) := by
  have h := c3_undefined_reference_is_lazy "undef" (by decide)
  exact ⟨h.1, h.2 (fun _ ds => ("", ds)) []⟩

/-! ### Lemmas about the definition extractor -/

/-- The token shape of one well-formed definition:
`SYMBOL name, DEFINE, body, SEMICOLON`. -/
def defTokens (name : Option String) (body : List Token) : List Token :=
  ⟨.SYMBOL, name⟩ :: ⟨.DEFINE, none⟩ :: (body ++ [⟨.SEMICOLON, none⟩])

theorem extractLoop_prev_irrel (rest : List Token)
    (defs : List (Option String × List Token)) (p1 p2 : Option Token)
    (hrest : ∀ t ts, rest = t :: ts → t.kind ≠ TokenKind.DEFINE) :
    extractLoop rest (.scanning p1) defs = extractLoop rest (.scanning p2) defs := by
  cases rest with
  | nil => rfl
  | cons t ts =>
    have ht := hrest t ts rfl
    simp [extractLoop, ht]

theorem extractLoop_skip_strays (s : List Token) :
    (∀ t ∈ s, t.kind ≠ TokenKind.DEFINE) →
    ∀ rest, (∀ t ts, rest = t :: ts → t.kind ≠ TokenKind.DEFINE) →
    ∀ prev defs,
      extractLoop (s ++ rest) (.scanning prev) defs
        = extractLoop rest (.scanning prev) defs := by
  induction s with
  | nil => intro _ rest _ prev defs; rfl
  | cons t ts ih =>
    intro hs rest hrest prev defs
    have ht : t.kind ≠ TokenKind.DEFINE := hs t (by simp)
    have step : extractLoop ((t :: ts) ++ rest) (.scanning prev) defs
        = extractLoop (ts ++ rest) (.scanning (some t)) defs := by
      simp [extractLoop, ht]
    rw [step, ih (fun x hx => hs x (by simp [hx])) rest hrest (some t) defs]
    exact extractLoop_prev_irrel rest defs (some t) prev hrest

theorem extractLoop_collect_body (b : List Token) :
    (∀ t ∈ b, t.kind ≠ TokenKind.SEMICOLON) →
    ∀ rest sym acc defs,
      extractLoop (b ++ rest) (.collecting sym acc) defs
        = extractLoop rest (.collecting sym (b.reverse ++ acc)) defs := by
  induction b with
  | nil => intro _ rest sym acc defs; simp
  | cons t ts ih =>
    intro hb rest sym acc defs
    have ht : t.kind ≠ TokenKind.SEMICOLON := hb t (by simp)
    have step : extractLoop ((t :: ts) ++ rest) (.collecting sym acc) defs
        = extractLoop (ts ++ rest) (.collecting sym (t :: acc)) defs := by
      simp [extractLoop, ht]
    rw [step, ih (fun x hx => hb x (by simp [hx])) rest sym (t :: acc) defs]
    have harr : ts.reverse ++ (t :: acc) = (t :: ts).reverse ++ acc := by simp
    rw [harr]

theorem extractLoop_def_block (n : Option String) (b : List Token)
    (hb : ∀ t ∈ b, t.kind ≠ TokenKind.SEMICOLON) (rest : List Token)
    (prev : Option Token) (defs : List (Option String × List Token)) :
    extractLoop (defTokens n b ++ rest) (.scanning prev) defs
      = if defs.any (fun kv => kv.1 == n) then
          .error (.reported ("attempt to redefine existing rule \"" ++ fmtKey n ++ "\""))
        else
          extractLoop rest (.scanning (some ⟨.SEMICOLON, none⟩)) (defs ++ [(n, b)]) := by
  have step1 : extractLoop (defTokens n b ++ rest) (.scanning prev) defs
      = extractLoop (⟨.DEFINE, none⟩ :: (b ++ [⟨.SEMICOLON, none⟩]) ++ rest)
          (.scanning (some ⟨.SYMBOL, n⟩)) defs := by
    simp [defTokens, extractLoop]
  have step2 : extractLoop (⟨.DEFINE, none⟩ :: (b ++ [⟨.SEMICOLON, none⟩]) ++ rest)
        (.scanning (some ⟨.SYMBOL, n⟩)) defs
      = extractLoop ((b ++ [⟨.SEMICOLON, none⟩]) ++ rest) (.collecting n []) defs := by
    simp [extractLoop]
  have hcb := extractLoop_collect_body b hb ([(⟨.SEMICOLON, none⟩ : Token)] ++ rest) n [] defs
  rw [step1, step2, List.append_assoc, hcb]
  have step3 : extractLoop ([⟨.SEMICOLON, none⟩] ++ rest) (.collecting n (b.reverse ++ [])) defs
      = if defs.any (fun kv => kv.1 == n) then
          .error (.reported ("attempt to redefine existing rule \"" ++ fmtKey n ++ "\""))
        else
          extractLoop rest (.scanning (some ⟨.SEMICOLON, none⟩))
            (defs ++ [(n, (b.reverse ++ []).reverse)]) := by
    simp [extractLoop]
  rw [step3]
  simp

/-- C9: a token stream holding two complete definitions of the same symbol
name is rejected by the definition extractor with the reported redefinition
error, whatever the two bodies are (identical or not), provided each body is
a genuine single definition body (it contains no `SEMICOLON`). -/
theorem c9_duplicate_definition_fatal (name : Option String) (b1 b2 : List Token)
    (h1 : ∀ t ∈ b1, t.kind ≠ TokenKind.SEMICOLON)
    (h2 : ∀ t ∈ b2, t.kind ≠ TokenKind.SEMICOLON) :
    parse_all_symbol_definitions (defTokens name b1 ++ defTokens name b2)
      = .error (.reported ("attempt to redefine existing rule \"" ++ fmtKey name ++ "\"")) := by
  unfold parse_all_symbol_definitions
  rw [extractLoop_def_block name b1 h1 (defTokens name b2) none []]
  simp only [List.any_nil, Bool.false_eq_true, if_false, List.nil_append]
  rw [show defTokens name b2 = defTokens name b2 ++ [] by simp]
  rw [extractLoop_def_block name b2 h2 [] (some ⟨.SEMICOLON, none⟩) [(name, b1)]]
  simp

/-- Witness for C9: duplicate definitions of `a` with different bodies. -/
theorem c9_duplicate_definition_fatal_witness :
    parse_all_symbol_definitions (defTokens (some "a") [⟨.LITERAL, some "x"⟩]
        ++ defTokens (some "a") [⟨.LITERAL, some "y"⟩])
      = .error (.reported ("attempt to redefine existing rule \"" ++ fmtKey (some "a") ++ "\"")) :=
  c9_duplicate_definition_fatal (some "a") _ _ (by decide) (by decide)

/-- C10: tokens lying outside every `SYMBOL DEFINE ... SEMICOLON` span —
before the first definition, between two definitions, or after the last —
are skipped by the definition extractor without an error and without any
effect on the result, provided the stray runs contain no `DEFINE` token (a
stray `DEFINE` is the claim's excluded "definition" shape) and each body is
a genuine single definition body. -/
theorem c10_stray_tokens_skipped (s0 s1 s2 : List Token) (n1 n2 : Option String)
    (b1 b2 : List Token)
    (hs0 : ∀ t ∈ s0, t.kind ≠ TokenKind.DEFINE)
    (hs1 : ∀ t ∈ s1, t.kind ≠ TokenKind.DEFINE)
    (hs2 : ∀ t ∈ s2, t.kind ≠ TokenKind.DEFINE)
    (hb1 : ∀ t ∈ b1, t.kind ≠ TokenKind.SEMICOLON)
    (hb2 : ∀ t ∈ b2, t.kind ≠ TokenKind.SEMICOLON) :
    parse_all_symbol_definitions
        (s0 ++ defTokens n1 b1 ++ s1 ++ defTokens n2 b2 ++ s2)
      = parse_all_symbol_definitions (defTokens n1 b1 ++ defTokens n2 b2) := by
  unfold parse_all_symbol_definitions
  have hhead1 : ∀ rest' : List Token, ∀ t ts,
      defTokens n1 b1 ++ rest' = t :: ts → t.kind ≠ TokenKind.DEFINE := by
    intro rest' t ts h
    simp only [defTokens, List.cons_append] at h
    injection h with h1 _
    rw [← h1]
    simp
  have hhead2 : ∀ rest' : List Token, ∀ t ts,
      defTokens n2 b2 ++ rest' = t :: ts → t.kind ≠ TokenKind.DEFINE := by
    intro rest' t ts h
    simp only [defTokens, List.cons_append] at h
    injection h with h1 _
    rw [← h1]
    simp
  simp only [List.append_assoc]
  rw [extractLoop_skip_strays s0 hs0 _ (hhead1 _) none []]
  rw [extractLoop_def_block n1 b1 hb1 _ none []]
  rw [extractLoop_def_block n1 b1 hb1 (defTokens n2 b2) none []]
  simp only [List.any_nil, Bool.false_eq_true, if_false, List.nil_append]
  rw [extractLoop_skip_strays s1 hs1 _ (hhead2 _) (some ⟨.SEMICOLON, none⟩) [(n1, b1)]]
  rw [extractLoop_def_block n2 b2 hb2 s2 (some ⟨.SEMICOLON, none⟩) [(n1, b1)]]
  rw [show defTokens n2 b2 = defTokens n2 b2 ++ [] by simp]
  rw [extractLoop_def_block n2 b2 hb2 [] (some ⟨.SEMICOLON, none⟩) [(n1, b1)]]
  cases hdup : ([(n1, b1)].any fun kv => kv.1 == n2) with
  | true => simp [hdup]
  | false =>
    simp only [hdup, Bool.false_eq_true, if_false]
    rw [show s2 = s2 ++ [] by simp]
    rw [extractLoop_skip_strays s2 hs2 [] (by intro t ts h; cases h) _ _]

/-- Witness for C10: stray literal, symbol, star and alternation tokens
around two definitions. -/
theorem c10_stray_tokens_skipped_witness :
    parse_all_symbol_definitions
        ([⟨.LITERAL, some "stray"⟩] ++ defTokens (some "start") [⟨.LITERAL, some "x"⟩]
          ++ [⟨.SYMBOL, some "s"⟩, ⟨.STAR, none⟩]
          ++ defTokens (some "b") [⟨.LITERAL, some "y"⟩] ++ [⟨.ALTER, none⟩])
      = parse_all_symbol_definitions
          (defTokens (some "start") [⟨.LITERAL, some "x"⟩]
            ++ defTokens (some "b") [⟨.LITERAL, some "y"⟩]) :=
  c10_stray_tokens_skipped _ _ _ _ _ _ _
    (by decide) (by decide) (by decide) (by decide) (by decide)

/-- C8: whenever the rule builder succeeds it returns a `ReferenceRule` bound
to the symbol name `start` (over the shared rule table it also returns); and
whenever definition extraction succeeds but yields no `start` entry, the
build fails with the reported entry-point error — before any generation. -/
theorem c8_build_returns_start_reference (tokens : List Token) :
    (∀ r tbl, parse_bnf_tokens tokens = .ok (r, tbl) →
        ∃ cnt, r = Rule.ReferenceRule (some "start") cnt)
    ∧ (∀ defs, parse_all_symbol_definitions tokens = .ok defs →
        (defs.any fun kv => kv.1 == (some "start" : Option String)) = false →
        parse_bnf_tokens tokens
          = .error
              (.reported "could not find an entry point; grammar must contain a <start> rule")) := by
  constructor
  · intro r tbl h
    unfold parse_bnf_tokens at h
    cases hd : parse_all_symbol_definitions tokens with
    | error e => rw [hd] at h; exact absurd h (by simp)
    | ok defs =>
      rw [hd] at h
      cases hs : (defs.any fun kv => kv.1 == (some "start" : Option String)) with
      | false => simp [hs] at h
      | true =>
        simp only [hs, if_true] at h
        cases hb : buildAll defs [] 0 with
        | error e => rw [hb] at h; exact absurd h (by simp)
        | ok p =>
          rw [hb] at h
          refine ⟨p.2, ?_⟩
          have := (Except.ok.injEq _ _).mp h
          exact (Prod.mk.injEq _ _ _ _ |>.mp this).1.symm
  · intro defs hd hs
    unfold parse_bnf_tokens
    rw [hd]
    simp [hs]

/-- Witness for C8: applying the theorem to a grammar with a `start` rule
(first half) and to one without (second half). -/
theorem c8_build_returns_start_reference_witness :
    (∃ cnt, (Rule.ReferenceRule (some "start") 0 : Rule)
        = Rule.ReferenceRule (some "start") cnt)
    ∧ parse_bnf_tokens [⟨.SYMBOL, some "a"⟩, ⟨.DEFINE, none⟩, ⟨.LITERAL, some "x"⟩,
        ⟨.SEMICOLON, none⟩]
      = .error
          (.reported "could not find an entry point; grammar must contain a <start> rule") :=
  ⟨(c8_build_returns_start_reference [⟨.SYMBOL, some "start"⟩, ⟨.DEFINE, none⟩,
      ⟨.LITERAL, some "x"⟩, ⟨.SEMICOLON, none⟩]).1
      (.ReferenceRule (some "start") 0) [(some "start", .LiteralRule "x")] rfl,
    (c8_build_returns_start_reference [⟨.SYMBOL, some "a"⟩, ⟨.DEFINE, none⟩,
      ⟨.LITERAL, some "x"⟩, ⟨.SEMICOLON, none⟩]).2
      [(some "a", [⟨.LITERAL, some "x"⟩])] rfl rfl⟩

end Pybnfuzzer
